import Mathlib

/-!
Verification of the k3d Terraform provider (`internal/provider`).

This file gives a shallow embedding, in Lean, of the provider's own logic:
the cluster-resource lifecycle handlers (Create / readCluster / Read /
Update / Delete), the nodes data source read loop, the attribute
validators, and the default plan modifiers.  Calls into the external k3d
client library (cluster lookup, creation, deletion, kubeconfig I/O) are
modelled as oracle results supplied through explicit environment records,
and every external call a handler makes is recorded in an effect trace so
that absence of side effects can be stated and proved.

Go standard-library functions the provider leans on — `strconv.ParseInt`
and `net.ParseIP` — are embedded faithfully (base-10 integer parsing with
a bit-size range check; IPv4 dotted-quad and IPv6 textual parsing with the
dispatch, overflow, ellipsis and embedded-IPv4 rules of the Go parser).
-/

/-! ## Terraform attribute values

A Terraform framework value (`types.String`, `types.Int64`, `types.Object`)
is either null, unknown (not yet computed), or a known value. -/

inductive TFVal (α : Type) where
  | null
  | unknown
  | value (a : α)
deriving DecidableEq, Repr

/-- Go `types.String.ValueString()`: the known value, or "" for null/unknown. -/
def tfValueString : TFVal String → String
  | .value s => s
  | _ => ""

/-- Go `types.Int64.ValueInt64()`: the known value, or 0 for null/unknown. -/
def tfValueInt : TFVal Int → Int
  | .value i => i
  | _ => 0

/-- Go `types.Int64.String()`: decimal text of the value, or the
null/unknown placeholders. -/
def tfIntGoString : TFVal Int → String
  | .value i => toString i
  | .null => "<null>"
  | .unknown => "<unknown>"

/-- Go `attr.Value.IsNull()`. -/
def tfIsNull : TFVal α → Bool
  | .null => true
  | _ => false

/-! ## Diagnostics -/

inductive Severity where
  | error
  | warning
deriving DecidableEq, Repr

/-- One entry of a `diag.Diagnostics` collection. -/
structure Diagnostic where
  severity : Severity
  summary : String
  detail : String
deriving DecidableEq, Repr

/-- `diag.NewErrorDiagnostic`. -/
def mkError (summary detail : String) : Diagnostic := ⟨.error, summary, detail⟩

/-- `diag.NewWarningDiagnostic`. -/
def mkWarning (summary detail : String) : Diagnostic := ⟨.warning, summary, detail⟩

/-- `diag.Diagnostics.HasError()`. -/
def hasError (ds : List Diagnostic) : Bool := ds.any (fun d => d.severity == Severity.error)

/-! ## Go `strconv.ParseInt` (base 10)

`strconv.ParseInt(s, 10, bitSize)` accepts an optional sign followed by at
least one decimal digit, and reports a range error when the result does
not fit in a signed `bitSize`-bit integer.  The provider and the data
source both call it with `bitSize = 16`.  We return `none` exactly when Go
returns a non-nil error (syntax or range). -/

def parseDecDigits : List Char → Nat → Option Nat
  | [], acc => some acc
  | c :: cs, acc =>
    if c.isDigit then parseDecDigits cs (acc * 10 + (c.toNat - 48)) else none

def goParseInt (bitSize : Nat) (s : String) : Option Int :=
  match s.data with
  | [] => none
  | c :: cs =>
    let signDigits : Bool × List Char :=
      if c = '-' then (true, cs) else if c = '+' then (false, cs) else (false, c :: cs)
    match signDigits.2 with
    | [] => none
    | ds =>
      match parseDecDigits ds 0 with
      | none => none
      | some n =>
        let v : Int := if signDigits.1 then -(n : Int) else (n : Int)
        if -(2 ^ (bitSize - 1) : Int) ≤ v ∧ v ≤ 2 ^ (bitSize - 1) - 1 then some v else none

/-! ## Go `net.ParseIP`

`net.ParseIP` (via `netip.ParseAddr`) dispatches on the first `.`, `:` or
`%` in the string: a `.` first means IPv4 dotted-quad, a `:` first means
IPv6, a `%` first (or no such character at all) means invalid.  Zoned IPv6
addresses parse in `netip` but are rejected by `net.ParseIP`, and an empty
zone is a parse error, so any `%` anywhere makes `net.ParseIP` return nil;
we fold that into the IPv6 model. -/

def splitOnDot : List Char → List (List Char)
  | [] => [[]]
  | c :: cs =>
    let r := splitOnDot cs
    if c = '.' then [] :: r
    else
      match r with
      | f :: rest => (c :: f) :: rest
      | [] => [[c]]

def decValue (f : List Char) : Nat := f.foldl (fun a c => a * 10 + (c.toNat - 48)) 0

/-- One field of an IPv4 dotted-quad, per `netip.parseIPv4Fields`: at least
one decimal digit, no leading zero, value at most 255. -/
def ipv4FieldOk (f : List Char) : Bool :=
  !f.isEmpty && f.all Char.isDigit && (f.length == 1 || !(f.head? == some '0')) &&
    decValue f ≤ 255

/-- `netip.parseIPv4` validity: exactly four `.`-separated valid fields. -/
def ipv4OkChars (cs : List Char) : Bool :=
  let fs := splitOnDot cs
  fs.length == 4 && fs.all ipv4FieldOk

def ipv4Ok (s : String) : Bool := ipv4OkChars s.data

def hexDigitVal (c : Char) : Option Nat :=
  if '0' ≤ c ∧ c ≤ '9' then some (c.toNat - 48)
  else if 'a' ≤ c ∧ c ≤ 'f' then some (c.toNat - 97 + 10)
  else if 'A' ≤ c ∧ c ≤ 'F' then some (c.toNat - 65 + 10)
  else none

/-- Scan a leading run of hex digits, accumulating the field value with a
per-digit overflow check (`acc > 0xFFFF` fails, as in `netip.parseIPv6`).
Returns the accumulated value, the digit count, and the rest. -/
def takeHexField : List Char → Nat → Nat → Option (Nat × Nat × List Char)
  | [], acc, cnt => some (acc, cnt, [])
  | c :: rest, acc, cnt =>
    match hexDigitVal c with
    | none => some (acc, cnt, c :: rest)
    | some d =>
      let acc' := acc * 16 + d
      if acc' > 65535 then none else takeHexField rest acc' (cnt + 1)

/-- Post-loop checks of `netip.parseIPv6`: the whole string must be
consumed; fewer than 16 bytes requires an ellipsis, a full 16 bytes
forbids one (the `::` must expand to at least one zero field). -/
def v6Finish (s : List Char) (i : Nat) (ell : Bool) : Bool :=
  s.isEmpty && (if i < 16 then ell else !ell)

/-- The field-parsing loop of `netip.parseIPv6`.  `i` counts address bytes
already produced, `ell` records whether a `::` has been seen.  Each
iteration consumes at least one character, so fuel `s.length + 1` is
always enough; running out of fuel is unreachable and conservatively
yields false. -/
def v6Loop : Nat → List Char → Nat → Bool → Bool
  | 0, _, _, _ => false
  | fuel + 1, s, i, ell =>
    if i < 16 then
      match takeHexField s 0 0 with
      | none => false
      | some (_, cnt, rest) =>
        if cnt == 0 then false
        else
          match rest with
          | [] => v6Finish [] (i + 2) ell
          | c :: rest1 =>
            if c = '.' then
              (ell || i == 12) && decide (i + 4 ≤ 16) && ipv4OkChars s &&
                v6Finish [] (i + 4) ell
            else if c ≠ ':' then false
            else
              match rest1 with
              | [] => false
              | c2 :: rest2 =>
                if c2 = ':' then
                  if ell then false
                  else if rest2.isEmpty then v6Finish [] (i + 2) true
                  else v6Loop fuel rest2 (i + 2) true
                else v6Loop fuel (c2 :: rest2) (i + 2) ell
    else v6Finish s i ell

/-- `netip.parseIPv6` validity, with any `%` (zone) rejected as explained
above.  A leading `::` sets the ellipsis up front; a bare `::` is the
unspecified address. -/
def parseIPv6Ok (s : String) : Bool :=
  if s.data.contains '%' then false
  else
    match s.data with
    | ':' :: ':' :: rest =>
      if rest.isEmpty then true else v6Loop (rest.length + 1) rest 0 true
    | cs => v6Loop (cs.length + 1) cs 0 false

/-- Go `net.ParseIP(s) != nil`. -/
def goParseIPOk (s : String) : Bool :=
  match s.data.find? (fun c => c = '.' || c = ':' || c = '%') with
  | some '.' => ipv4Ok s
  | some ':' => parseIPv6Ok s
  | _ => false

/-! ## Validators (`validators.go`)

`validatordiag.InvalidAttributeValueDiagnostic` produces an error-severity
diagnostic scoped to the attribute; we model its summary and keep the
description and offending value in the detail. -/

def invalidAttrValueDiag (desc val : String) : Diagnostic :=
  mkError "Invalid Attribute Value" (desc ++ ", got: " ++ val)

/-- `portValidator.ValidateInt64`: null/unknown pass; a concrete value
outside 1..65535 yields an attribute-scoped diagnostic. -/
def portValidatorDiags (cfg : TFVal Int) : List Diagnostic :=
  match cfg with
  | .null => []
  | .unknown => []
  | .value port =>
    if port < 1 ∨ port > 65535 then
      [invalidAttrValueDiag "A valid port in the range of 1-65535" (toString port)]
    else []

/-- `ipValidator.ValidateString`: null/unknown pass; a concrete value is
rejected exactly when `net.ParseIP` returns nil. -/
def ipValidatorDiags (cfg : TFVal String) : List Diagnostic :=
  match cfg with
  | .null => []
  | .unknown => []
  | .value ip =>
    if goParseIPOk ip then []
    else [invalidAttrValueDiag "A valid IPv4 address in dotted-quad notation" ip]

/-- The spec describes the IP validator as accepting exactly "a valid IPv4
address in dotted-quad form": four dot-separated decimal fields, each in
0..255.  Stated from the spec wording, to compare with the code's
`net.ParseIP` check. -/
def specIsIPv4DottedQuad (s : String) : Bool :=
  let fs := splitOnDot s.data
  fs.length == 4 &&
    fs.all (fun f => !f.isEmpty && f.all Char.isDigit && decValue f ≤ 255)

/-! ## Plan modifiers (`plan_modifiers.go`)

Each modifier reads the planned attribute value and, when it decides not
to return early, overwrites the response plan with the static default.
`stringDefaultModifier` and `intDefaultModifier` return early only for a
known (neither null nor unknown) value; `objectDefaultModifier` returns
early for any non-null value, including unknown ones. -/

def stringDefaultModify (dflt : String) (plan : TFVal String) : TFVal String :=
  match plan with
  | .value s => .value s
  | _ => .value dflt

def intDefaultModify (dflt : Int) (plan : TFVal Int) : TFVal Int :=
  match plan with
  | .value i => .value i
  | _ => .value dflt

/-- Attribute map of a `types.Object` (attribute name to rendered value);
the modifier never inspects it. -/
abbrev ObjAttrs := List (String × String)

def objectDefaultModify (dflt : TFVal ObjAttrs) (plan : TFVal ObjAttrs) : TFVal ObjAttrs :=
  match plan with
  | .null => dflt
  | p => p

/-! ## k3d domain types (`k3dtypes`)

Only the fields the provider reads are modelled. -/

/-- A container port binding (`nat.PortBinding`): host IP and host port,
the latter kept as the string Docker reports. -/
structure PortBinding where
  hostIP : String
  hostPort : String
deriving DecidableEq, Repr

/-- `k3dtypes.Node`, restricted to the fields the provider reads.  `ports`
maps a container port number to its list of host bindings. -/
structure Node where
  name : String
  role : String
  image : String
  ports : List (Nat × List PortBinding)
  runtimeLabels : List (String × String)
  k3sNodeLabels : List (String × String)
  networks : List String
  ip : String
deriving DecidableEq, Repr

def serverRole : String := "server"
def agentRole : String := "agent"
def loadbalancerRole : String := "loadbalancer"

/-- `k3dtypes.ExposureOpts` for the Kubernetes API. -/
structure KubeAPI where
  host : String
  binding : PortBinding
deriving DecidableEq, Repr

/-- A cluster as returned by `client.ClusterGet`. -/
structure Cluster where
  name : String
  nodes : List Node
  networkName : String
  kubeAPI : Option KubeAPI
deriving DecidableEq, Repr

/-! ## Cluster resource state (`k3dClusterData`) -/

structure K3dClusterData where
  id : TFVal String
  name : TFVal String
  servers : TFVal Int
  agents : TFVal Int
  k8sHost : TFVal String
  k8sHostIP : TFVal String
  k8sHostPort : TFVal Int
  image : TFVal String
  imageSHA : TFVal String
  network : TFVal String
deriving DecidableEq, Repr

/-! ## readCluster (`resource_k3d_cluster.go`)

The node loop of `readCluster` skips every node whose role is neither
agent nor server, collects the distinct images of the remaining nodes
(`map[string]struct{}` insertion), and counts agents and servers. -/

structure ScanAcc where
  agents : Nat
  servers : Nat
  images : List String
deriving DecidableEq, Repr

/-- Insertion into the de-duplicated image collection (Go map insert,
keyed by the image string; first-occurrence order). -/
def imageInsert (acc : List String) (img : String) : List String :=
  if img ∈ acc then acc else acc ++ [img]

def scanStep (acc : ScanAcc) (n : Node) : ScanAcc :=
  if n.role == agentRole || n.role == serverRole then
    let images := imageInsert acc.images n.image
    if n.role == agentRole then ⟨acc.agents + 1, acc.servers, images⟩
    else if n.role == serverRole then ⟨acc.agents, acc.servers + 1, images⟩
    else ⟨acc.agents, acc.servers, images⟩
  else acc

def scanNodes (ns : List Node) : ScanAcc := ns.foldl scanStep ⟨0, 0, []⟩

/-- The comma-joined image list of the multiple-images warning, built as
in the Go `strings.Builder` loop (empty prefix first, then ", ").  Go maps
iterate in unspecified order; the model uses first-occurrence order. -/
def joinComma (xs : List String) : String :=
  (xs.foldl (fun (acc : String × String) img => (acc.1 ++ acc.2 ++ img, ", ")) ("", "")).1

/-- The image block of `readCluster` (`if len(images) > 1 ... else ...`):
more than one distinct image yields the ambiguity warning and leaves
`imageSHA` untouched; exactly one records it; none leaves everything
untouched. -/
def imageObservation (data : K3dClusterData) (images : List String) :
    K3dClusterData × List Diagnostic :=
  if 1 < images.length then
    (data, [mkWarning "Multiple node images found" (joinComma images)])
  else
    match images with
    | [img] => ({ data with imageSHA := TFVal.value img }, [])
    | _ => (data, [])

/-- The `cluster.KubeAPI != nil` block of `readCluster`: when API exposure
is reported, host and host IP are copied and the host port string is
parsed as a 16-bit integer — recording it on success and emitting a
warning (leaving the field untouched) on failure. -/
def kubeAPIObservation (data : K3dClusterData) (api : Option KubeAPI) :
    K3dClusterData × List Diagnostic :=
  match api with
  | none => (data, [])
  | some a =>
    let data' : K3dClusterData :=
      { data with
          k8sHost := TFVal.value a.host
          k8sHostIP := TFVal.value a.binding.hostIP }
    match goParseInt 16 a.binding.hostPort with
    | none => (data', [mkWarning "Invalid port found in cluster settings" a.binding.hostPort])
    | some port => ({ data' with k8sHostPort := TFVal.value port }, [])

/-- `k3dCluster.readCluster` after a successful `ClusterGet`: refresh
agent/server counts, the de-duplicated image observation, network and id,
then the Kubernetes API observation; diagnostics accumulate in that
order. -/
def readClusterOk (data : K3dClusterData) (cluster : Cluster) :
    K3dClusterData × List Diagnostic :=
  let acc := scanNodes cluster.nodes
  let step1 := imageObservation data acc.images
  let data2 : K3dClusterData :=
    { step1.1 with
        agents := TFVal.value (Int.ofNat acc.agents)
        servers := TFVal.value (Int.ofNat acc.servers)
        network := TFVal.value cluster.networkName
        id := step1.1.name }
  let step2 := kubeAPIObservation data2 cluster.kubeAPI
  (step2.1, step1.2 ++ step2.2)

/-- `k3dCluster.readCluster`: the `ClusterGet` result is supplied as an
oracle; a lookup error becomes a fatal diagnostic and leaves the state
untouched. -/
def readCluster (data : K3dClusterData) (getRes : Except String Cluster) :
    K3dClusterData × List Diagnostic :=
  match getRes with
  | .error e => (data, [mkError "Error reading k3d cluster" e])
  | .ok cluster => readClusterOk data cluster

/-! ## Create (`k3dCluster.Create`) -/

/-- `config.SimpleConfig` restricted to the fields Create fills in. -/
structure SimpleConfig where
  servers : Int
  agents : Int
  image : String
  name : String
  waitFlag : Bool
  timeoutSeconds : Nat
  network : String
  exposeHost : String
  exposeHostIP : String
  exposeHostPort : String
deriving DecidableEq, Repr

/-- The configuration synthesis of `Create` (lines building `simpleConf`):
unconditional fields first, then the four conditional assignments guarded
by `IsNull` checks.  The host port is rendered with `Int64.String()`. -/
def synthSimpleConfig (data : K3dClusterData) : SimpleConfig :=
  let base : SimpleConfig :=
    { servers := tfValueInt data.servers
      agents := tfValueInt data.agents
      image := tfValueString data.image
      name := tfValueString data.name
      waitFlag := true
      timeoutSeconds := 90
      network := ""
      exposeHost := ""
      exposeHostIP := ""
      exposeHostPort := "" }
  let c1 := if tfIsNull data.network then base else { base with network := tfValueString data.network }
  let c2 := if tfIsNull data.k8sHost then c1 else { c1 with exposeHost := tfValueString data.k8sHost }
  let c3 := if tfIsNull data.k8sHostIP then c2 else { c2 with exposeHostIP := tfValueString data.k8sHostIP }
  if tfIsNull data.k8sHostPort then c3 else { c3 with exposeHostPort := tfIntGoString data.k8sHostPort }

/-- One external call made by a lifecycle handler, in the order performed. -/
inductive Effect where
  | clusterGetPre
  | processSimpleConfig (cfg : SimpleConfig)
  | transformSimpleToClusterConfig
  | processClusterConfig
  | validateClusterConfig
  | clusterRun
  | clusterDeleteRollback
  | kubeconfigWrite
  | clusterGetRead
  | clusterGetDelete
  | clusterDelete
  | kubeconfigRemoveDefault
  | getConfigDir
  | osRemoveKubeconfig
  | stateCommit
deriving DecidableEq, Repr

/-- Oracle results of the external calls `Create` may perform.  `preGet`
is the pre-check `ClusterGet` error: `none` means the lookup succeeded,
i.e. a cluster with the requested name already exists. -/
structure CreateEnv where
  preGet : Option String
  processSimple : Option String
  transform : Option String
  processCluster : Option String
  validate : Option String
  run : Option String
  rollback : Option String
  kubeconfig : Option String
  readGet : Except String Cluster

structure CreateResult where
  diags : List Diagnostic
  effects : List Effect
  committed : Option K3dClusterData
deriving DecidableEq, Repr

/-- `k3dCluster.Create` after a successful `req.Plan.Get`.  Mirrors the Go
control flow: conflict pre-check, config synthesis, the three config
transforms plus validation (each aborting on error), cluster creation with
best-effort rollback, kubeconfig write (warning only), the `readCluster`
refresh, and finally the state commit. -/
def createCluster (env : CreateEnv) (data : K3dClusterData) : CreateResult :=
  match env.preGet with
  | none =>
    { diags := [mkError "A cluster with the same name already exists" (tfValueString data.name)]
      effects := [.clusterGetPre]
      committed := none }
  | some _ =>
    let cfg := synthSimpleConfig data
    let eff1 : List Effect := [.clusterGetPre, .processSimpleConfig cfg]
    match env.processSimple with
    | some e => ⟨[mkError "Error processing K3D simple configuration" e], eff1, none⟩
    | none =>
      let eff2 := eff1 ++ [.transformSimpleToClusterConfig]
      match env.transform with
      | some e => ⟨[mkError "Error transforming simple config to cluster config" e], eff2, none⟩
      | none =>
        let eff3 := eff2 ++ [.processClusterConfig]
        match env.processCluster with
        | some e => ⟨[mkError "Error processing cluster config" e], eff3, none⟩
        | none =>
          let eff4 := eff3 ++ [.validateClusterConfig]
          match env.validate with
          | some e => ⟨[mkError "Error validating cluster config" e], eff4, none⟩
          | none =>
            let eff5 := eff4 ++ [.clusterRun]
            match env.run with
            | some e =>
              let rollbackDiags := match env.rollback with
                | some e2 => [mkWarning "Error rolling back failed cluster creation" e2]
                | none => []
              ⟨mkError "Error creating cluster" e :: rollbackDiags,
                eff5 ++ [.clusterDeleteRollback], none⟩
            | none =>
              let kubeDiags := match env.kubeconfig with
                | some e => [mkWarning "Error writing kubeconfig" e]
                | none => []
              let eff6 := eff5 ++ [.kubeconfigWrite, .clusterGetRead]
              let rd := readCluster data env.readGet
              if hasError (kubeDiags ++ rd.2) then ⟨kubeDiags ++ rd.2, eff6, none⟩
              else ⟨kubeDiags ++ rd.2, eff6 ++ [.stateCommit], some rd.1⟩

/-! ## Update (`k3dCluster.Update`) -/

/-- `k3dCluster.Update`: appends one fatal diagnostic and returns,
performing no external call and no state change. -/
def updateCluster (_data : K3dClusterData) : List Diagnostic × List Effect :=
  ([mkError "Updates are unsupported" ""], [])

/-! ## Delete (`k3dCluster.Delete`) -/

/-- A `ClusterGet` failure as seen by `Delete`: the message, and whether
`errors.Is(err, client.ClusterGetNoNodesFoundError)` holds. -/
structure GetErr where
  msg : String
  isNoNodesFound : Bool
deriving DecidableEq, Repr

/-- An `os.Remove` failure: the message, and whether `os.IsNotExist` holds. -/
structure OsErr where
  msg : String
  isNotExist : Bool
deriving DecidableEq, Repr

/-- Oracle results of the external calls `Delete` may perform. -/
structure DeleteEnv where
  get : Except GetErr Cluster
  del : Option String
  kubeRemove : Option String
  configDir : Except String String
  osRemove : Option OsErr

structure DeleteResult where
  diags : List Diagnostic
  effects : List Effect
deriving DecidableEq, Repr

/-- `k3dCluster.Delete` after a successful `req.State.Get`: a lookup
failure that is `ClusterGetNoNodesFoundError` returns silently; any other
lookup failure is fatal; otherwise the cluster is deleted, its kubeconfig
entry removed from the default config, and its standalone kubeconfig file
removed (a missing file is not an error).  The Go message quotes the file
path in single quotes; the quotes are omitted here. -/
def deleteCluster (env : DeleteEnv) (_data : K3dClusterData) : DeleteResult :=
  match env.get with
  | .error e =>
    if e.isNoNodesFound then ⟨[], [.clusterGetDelete]⟩
    else ⟨[mkError "Error reading k3d cluster" e.msg], [.clusterGetDelete]⟩
  | .ok cluster =>
    let d1 := match env.del with
      | some e => [mkError "Failed to delete the cluster" e]
      | none => []
    let d2 := match env.kubeRemove with
      | some e => [mkError "Failed to remove kubeconfig from default config" e]
      | none => []
    match env.configDir with
    | .error e =>
      ⟨d1 ++ d2 ++ [mkError "Failed to delete kubeconfig file" e],
        [.clusterGetDelete, .clusterDelete, .kubeconfigRemoveDefault, .getConfigDir]⟩
    | .ok dir =>
      let file := dir ++ "/kubeconfig-" ++ cluster.name ++ ".yaml"
      let d3 := match env.osRemove with
        | some oe =>
          if oe.isNotExist then []
          else [mkError ("Failed to delete kubeconfig file " ++ file) oe.msg]
        | none => []
      ⟨d1 ++ d2 ++ d3,
        [.clusterGetDelete, .clusterDelete, .kubeconfigRemoveDefault, .getConfigDir,
          .osRemoveKubeconfig]⟩

/-! ## Nodes data source (`datasource_k3d_nodes.go`) -/

structure K3dPort where
  port : Int
  hostIP : String
  hostPort : Int
deriving DecidableEq, Repr

structure K3dNodeOut where
  name : String
  role : String
  ports : List K3dPort
  runtimeLabels : List (String × String)
  nodeLabels : List (String × String)
  networks : List String
  ip : String
deriving DecidableEq, Repr

/-- The port-binding flattening of the data source read loop: every
binding whose host port parses as a 16-bit integer becomes one entry;
bindings that fail to parse are silently dropped. -/
def flattenPorts (ports : List (Nat × List PortBinding)) : List K3dPort :=
  ports.flatMap fun pb =>
    pb.2.filterMap fun b =>
      (goParseInt 16 b.hostPort).map fun hp => ⟨(pb.1 : Int), b.hostIP, hp⟩

/-- The per-node projection stored into the result map. -/
def convertNode (n : Node) : K3dNodeOut :=
  ⟨n.name, n.role, flattenPorts n.ports, n.runtimeLabels, n.k3sNodeLabels, n.networks, n.ip⟩

/-- The data source's membership filter: the node's runtime label
"k3d.cluster" must exist and equal the requested cluster name. -/
def nodeInCluster (clusterName : String) (n : Node) : Bool :=
  match n.runtimeLabels.lookup "k3d.cluster" with
  | some c => c == clusterName
  | none => false

/-- The read loop of `k3dNodesDataSource.Read`: iterate the runtime's node
list, keep only members of the requested cluster, and store each under its
name.  The Go map store is modelled as an association list where a
prepended entry shadows older ones, so `List.lookup` sees the latest
write, exactly as a Go map would. -/
def nodesRead (clusterName : String) (nodes : List Node) : List (String × K3dNodeOut) :=
  nodes.foldl
    (fun m n => if nodeInCluster clusterName n then (n.name, convertNode n) :: m else m)
    []

/-! ## Claim theorems -/

/-- C1: when the pre-check lookup succeeds (a cluster with the requested
name already exists), Create fails with the conflict error diagnostic
naming the cluster, and its effect trace holds nothing but that lookup: no
config transform, no cluster creation, no kubeconfig write, and no state
commit occur. -/
theorem create_conflict_no_mutation (env : CreateEnv) (data : K3dClusterData)
    (h : env.preGet = none) :
    createCluster env data =
      { diags := [mkError "A cluster with the same name already exists" (tfValueString data.name)]
        effects := [Effect.clusterGetPre]
        committed := none } ∧
    hasError (createCluster env data).diags = true := by
  unfold createCluster
  rw [h]
  exact ⟨rfl, rfl⟩

theorem create_conflict_no_mutation_witness :
    createCluster
        ⟨none, none, none, none, none, none, none, none, Except.error "read error"⟩
        ⟨TFVal.null, TFVal.value "test", TFVal.null, TFVal.null, TFVal.null, TFVal.null,
          TFVal.null, TFVal.null, TFVal.null, TFVal.null⟩ =
      ⟨[mkError "A cluster with the same name already exists" "test"],
        [Effect.clusterGetPre], none⟩ ∧
    hasError
      (createCluster
        ⟨none, none, none, none, none, none, none, none, Except.error "read error"⟩
        ⟨TFVal.null, TFVal.value "test", TFVal.null, TFVal.null, TFVal.null, TFVal.null,
          TFVal.null, TFVal.null, TFVal.null, TFVal.null⟩).diags = true :=
  create_conflict_no_mutation _ _ rfl

/-- C3: when the Delete-path lookup fails with the dedicated
"no nodes found" error, Delete returns silently — no diagnostics, and no
external call besides the lookup itself (no deletion, no kubeconfig
removal); any other lookup failure yields a fatal diagnostic and likewise
stops before any deletion. -/
theorem delete_absent_idempotent (env : DeleteEnv) (data : K3dClusterData) (e : GetErr)
    (h : env.get = .error e) :
    deleteCluster env data =
      (if e.isNoNodesFound then ⟨[], [Effect.clusterGetDelete]⟩
       else ⟨[mkError "Error reading k3d cluster" e.msg], [Effect.clusterGetDelete]⟩) := by
  unfold deleteCluster
  rw [h]

theorem delete_absent_idempotent_witness :
    deleteCluster
        ⟨Except.error ⟨"no nodes found for cluster test", true⟩, none, none,
          Except.error "unused", none⟩
        ⟨TFVal.null, TFVal.value "test", TFVal.null, TFVal.null, TFVal.null, TFVal.null,
          TFVal.null, TFVal.null, TFVal.null, TFVal.null⟩ =
      ⟨[], [Effect.clusterGetDelete]⟩ ∧
    deleteCluster
        ⟨Except.error ⟨"runtime failure", false⟩, none, none, Except.error "unused", none⟩
        ⟨TFVal.null, TFVal.value "test", TFVal.null, TFVal.null, TFVal.null, TFVal.null,
          TFVal.null, TFVal.null, TFVal.null, TFVal.null⟩ =
      ⟨[mkError "Error reading k3d cluster" "runtime failure"], [Effect.clusterGetDelete]⟩ :=
  ⟨delete_absent_idempotent _ _ ⟨"no nodes found for cluster test", true⟩ rfl,
    delete_absent_idempotent _ _ ⟨"runtime failure", false⟩ rfl⟩

/-- C4: Update, for every input, produces exactly one error-severity
diagnostic and performs no external call. -/
theorem update_always_fatal (data : K3dClusterData) :
    updateCluster data = ([mkError "Updates are unsupported" ""], []) ∧
    hasError (updateCluster data).1 = true :=
  ⟨rfl, rfl⟩

/-- C5 (code bug evidence): the schema's own port validator accepts 40000
as a valid port, yet `readCluster` parses the observed host port with
`strconv.ParseInt(_, 10, 16)`, whose signed 16-bit range ends at 32767.
On a cluster whose API binding reports host port "40000" the read
therefore emits the invalid-port warning and leaves `k8s_api_host_port`
unset, although "40000" is numeric and inside 1..65535. -/
theorem readCluster_port_16bit_truncation :
    portValidatorDiags (TFVal.value 40000) = [] ∧
    goParseInt 16 "40000" = none ∧
    (readCluster
        ⟨TFVal.null, TFVal.value "test", TFVal.null, TFVal.null, TFVal.null, TFVal.null,
          TFVal.null, TFVal.null, TFVal.null, TFVal.null⟩
        (Except.ok ⟨"test", [], "k3d-test", some ⟨"", ⟨"0.0.0.0", "40000"⟩⟩⟩)).1.k8sHostPort =
      TFVal.null ∧
    (readCluster
        ⟨TFVal.null, TFVal.value "test", TFVal.null, TFVal.null, TFVal.null, TFVal.null,
          TFVal.null, TFVal.null, TFVal.null, TFVal.null⟩
        (Except.ok ⟨"test", [], "k3d-test", some ⟨"", ⟨"0.0.0.0", "40000"⟩⟩⟩)).2 =
      [mkWarning "Invalid port found in cluster settings" "40000"] := by
  refine ⟨by decide, by decide, rfl, rfl⟩

/-- C7 (code bug evidence): the IP validator accepts and rejects the
spec's dotted-quad examples as claimed and passes null/unknown through,
but its actual check is `net.ParseIP`, which also accepts IPv6 text: the
value "::1" is not an IPv4 dotted-quad yet produces no diagnostic,
contradicting the validator's own description. -/
theorem ipValidator_accepts_ipv6 :
    ipValidatorDiags (TFVal.value "127.0.0.1") = [] ∧
    ipValidatorDiags (TFVal.value "10.0.0.5") = [] ∧
    ipValidatorDiags (TFVal.value "not-an-ip") ≠ [] ∧
    ipValidatorDiags (TFVal.value "256.1.1.1") ≠ [] ∧
    ipValidatorDiags TFVal.null = [] ∧
    ipValidatorDiags TFVal.unknown = [] ∧
    specIsIPv4DottedQuad "::1" = false ∧
    ipValidatorDiags (TFVal.value "::1") = [] := by
  decide

/-- C8 (counterexample): the object default modifier does not replace a
not-yet-known planned value with the static default — unlike the string
and integer variants, it returns early for every non-null value, so an
unknown object passes through unchanged. -/
theorem objectDefault_unknown_not_defaulted :
    objectDefaultModify (TFVal.value [("host", "localhost")]) TFVal.unknown =
      TFVal.unknown ∧
    objectDefaultModify (TFVal.value [("host", "localhost")]) TFVal.unknown ≠
      TFVal.value [("host", "localhost")] := by
  refine ⟨rfl, by decide⟩

/-- C8 (amended): the string and integer default modifiers replace a null
or unknown planned value with the static default and pass known values
through; the object variant replaces only a null planned value, passing
unknown values through unchanged; all three are idempotent. -/
theorem default_modifiers_amended :
    (∀ d : String,
      stringDefaultModify d TFVal.null = TFVal.value d ∧
      stringDefaultModify d TFVal.unknown = TFVal.value d ∧
      (∀ s, stringDefaultModify d (TFVal.value s) = TFVal.value s) ∧
      ∀ p, stringDefaultModify d (stringDefaultModify d p) = stringDefaultModify d p) ∧
    (∀ d : Int,
      intDefaultModify d TFVal.null = TFVal.value d ∧
      intDefaultModify d TFVal.unknown = TFVal.value d ∧
      (∀ i, intDefaultModify d (TFVal.value i) = TFVal.value i) ∧
      ∀ p, intDefaultModify d (intDefaultModify d p) = intDefaultModify d p) ∧
    (∀ dflt : TFVal ObjAttrs,
      objectDefaultModify dflt TFVal.null = dflt ∧
      objectDefaultModify dflt TFVal.unknown = TFVal.unknown ∧
      (∀ a, objectDefaultModify dflt (TFVal.value a) = TFVal.value a) ∧
      ∀ p, objectDefaultModify dflt (objectDefaultModify dflt p) = objectDefaultModify dflt p) := by
  refine ⟨fun d => ⟨rfl, rfl, fun s => rfl, fun p => ?_⟩,
    fun d => ⟨rfl, rfl, fun i => rfl, fun p => ?_⟩,
    fun dflt => ⟨rfl, rfl, fun a => rfl, fun p => ?_⟩⟩
  · cases p <;> rfl
  · cases p <;> rfl
  · cases p
    · cases dflt <;> rfl
    · rfl
    · rfl

/-! ### Lemmas about the node scan -/

theorem scanStep_skip (acc : ScanAcc) (n : Node)
    (h : (n.role == serverRole || n.role == agentRole) = false) : scanStep acc n = acc := by
  have hs : (n.role == serverRole) = false := by
    cases h1 : n.role == serverRole
    · rfl
    · rw [h1, Bool.true_or] at h; exact absurd h (by decide)
  have ha : (n.role == agentRole) = false := by
    cases h1 : n.role == agentRole
    · rfl
    · rw [h1, Bool.or_true] at h; exact absurd h (by decide)
  unfold scanStep
  rw [hs, ha]
  rfl

theorem scanFold_filter (ns : List Node) (acc : ScanAcc) :
    ((ns.filter fun n => n.role == serverRole || n.role == agentRole).foldl scanStep acc) =
      ns.foldl scanStep acc := by
  induction ns generalizing acc with
  | nil => rfl
  | cons a l ih =>
    cases hb : (a.role == serverRole || a.role == agentRole) with
    | true =>
      rw [List.filter_cons, if_pos hb, List.foldl_cons, List.foldl_cons, ih]
    | false =>
      rw [List.filter_cons, if_neg (by simp [hb]), List.foldl_cons, scanStep_skip acc a hb, ih]

theorem scanNodes_filter (ns : List Node) :
    scanNodes (ns.filter fun n => n.role == serverRole || n.role == agentRole) = scanNodes ns :=
  scanFold_filter ns ⟨0, 0, []⟩

/-- C9: the whole cluster read result — counts, image-ambiguity decision,
recorded image, and all diagnostics — is unchanged when every node whose
role is neither server nor agent is removed first; a load-balancer node's
image never contributes to the ambiguity warning and is never recorded. -/
theorem readCluster_ignores_non_server_agent (data : K3dClusterData) (cluster : Cluster) :
    readCluster data
        (Except.ok
          { cluster with
              nodes := cluster.nodes.filter fun n => n.role == serverRole || n.role == agentRole }) =
      readCluster data (Except.ok cluster) := by
  obtain ⟨nm, ns, net, api⟩ := cluster
  simp only [readCluster, readClusterOk]
  rw [scanNodes_filter]

/-! ### C2: image ambiguity -/

/-- Does a diagnostics collection contain the image-ambiguity warning? -/
def hasMultiImageWarn (ds : List Diagnostic) : Bool :=
  ds.any fun d => d.summary == "Multiple node images found"

/-- The Kubernetes API block never touches `imageSHA`. -/
theorem kubeAPIObservation_imageSHA (d : K3dClusterData) (api : Option KubeAPI) :
    (kubeAPIObservation d api).1.imageSHA = d.imageSHA := by
  unfold kubeAPIObservation
  cases api with
  | none => rfl
  | some a =>
    dsimp only
    cases goParseInt 16 a.binding.hostPort with
    | none => rfl
    | some p => rfl

/-- The Kubernetes API block never emits the image-ambiguity warning. -/
theorem kubeAPIObservation_noMultiWarn (d : K3dClusterData) (api : Option KubeAPI) :
    hasMultiImageWarn (kubeAPIObservation d api).2 = false := by
  unfold kubeAPIObservation
  cases api with
  | none => rfl
  | some a =>
    dsimp only
    cases goParseInt 16 a.binding.hostPort with
    | none =>
      show hasMultiImageWarn [_] = false
      simp only [hasMultiImageWarn, List.any_cons, List.any_nil, Bool.or_false]
      rfl
    | some p => rfl

/-- The image block leaves every field other than `imageSHA` untouched. -/
theorem imageObservation_frame (d : K3dClusterData) (imgs : List String) :
    (imageObservation d imgs).1.name = d.name ∧
    (imageObservation d imgs).1.k8sHost = d.k8sHost ∧
    (imageObservation d imgs).1.k8sHostIP = d.k8sHostIP ∧
    (imageObservation d imgs).1.k8sHostPort = d.k8sHostPort := by
  unfold imageObservation
  split
  · exact ⟨rfl, rfl, rfl, rfl⟩
  · split
    · exact ⟨rfl, rfl, rfl, rfl⟩
    · exact ⟨rfl, rfl, rfl, rfl⟩

/-- C2: on a successful cluster read, if the de-duplicated image
collection of the (server/agent) nodes has more than one element, the
image-ambiguity warning is emitted and the `image_sha` state field is not
written (it keeps its prior value, hence stays unset when it was unset);
if it has exactly one element, that image is recorded and no such warning
is emitted. -/
theorem readCluster_image_ambiguity (data : K3dClusterData) (cluster : Cluster) :
    (1 < (scanNodes cluster.nodes).images.length →
      hasMultiImageWarn (readCluster data (Except.ok cluster)).2 = true ∧
      (readCluster data (Except.ok cluster)).1.imageSHA = data.imageSHA) ∧
    (∀ img, (scanNodes cluster.nodes).images = [img] →
      (readCluster data (Except.ok cluster)).1.imageSHA = TFVal.value img ∧
      hasMultiImageWarn (readCluster data (Except.ok cluster)).2 = false) := by
  constructor
  · intro h
    have h1 : imageObservation data (scanNodes cluster.nodes).images =
        (data, [mkWarning "Multiple node images found" (joinComma (scanNodes cluster.nodes).images)]) := by
      unfold imageObservation
      rw [if_pos h]
    simp only [readCluster, readClusterOk, h1]
    constructor
    · simp only [hasMultiImageWarn, List.any_append, List.any_cons, List.any_nil, Bool.or_false]
      rw [show ((mkWarning "Multiple node images found"
            (joinComma (scanNodes cluster.nodes).images)).summary ==
          "Multiple node images found") = true from rfl]
      rw [Bool.true_or]
    · rw [kubeAPIObservation_imageSHA]
  · intro img h
    have h1 : imageObservation data (scanNodes cluster.nodes).images =
        ({ data with imageSHA := TFVal.value img }, []) := by
      unfold imageObservation
      rw [h]
      rfl
    simp only [readCluster, readClusterOk, h1]
    constructor
    · rw [kubeAPIObservation_imageSHA]
    · simp only [List.nil_append]
      exact kubeAPIObservation_noMultiWarn _ _

theorem readCluster_image_ambiguity_witness :
    (hasMultiImageWarn
        (readCluster
          ⟨TFVal.null, TFVal.value "test", TFVal.null, TFVal.null, TFVal.null, TFVal.null,
            TFVal.null, TFVal.null, TFVal.null, TFVal.null⟩
          (Except.ok
            ⟨"test",
              [⟨"k3d-test-server-0", "server", "rancher/k3s:a", [], [], [], [], ""⟩,
                ⟨"k3d-test-agent-0", "agent", "rancher/k3s:b", [], [], [], [], ""⟩],
              "k3d-test", none⟩)).2 = true ∧
      (readCluster
          ⟨TFVal.null, TFVal.value "test", TFVal.null, TFVal.null, TFVal.null, TFVal.null,
            TFVal.null, TFVal.null, TFVal.null, TFVal.null⟩
          (Except.ok
            ⟨"test",
              [⟨"k3d-test-server-0", "server", "rancher/k3s:a", [], [], [], [], ""⟩,
                ⟨"k3d-test-agent-0", "agent", "rancher/k3s:b", [], [], [], [], ""⟩],
              "k3d-test", none⟩)).1.imageSHA = TFVal.null) ∧
    ((readCluster
          ⟨TFVal.null, TFVal.value "test", TFVal.null, TFVal.null, TFVal.null, TFVal.null,
            TFVal.null, TFVal.null, TFVal.null, TFVal.null⟩
          (Except.ok
            ⟨"test",
              [⟨"k3d-test-server-0", "server", "rancher/k3s:a", [], [], [], [], ""⟩,
                ⟨"k3d-test-serverlb", "loadbalancer", "rancher/k3d-proxy", [], [], [], [], ""⟩],
              "k3d-test", none⟩)).1.imageSHA = TFVal.value "rancher/k3s:a" ∧
      hasMultiImageWarn
        (readCluster
          ⟨TFVal.null, TFVal.value "test", TFVal.null, TFVal.null, TFVal.null, TFVal.null,
            TFVal.null, TFVal.null, TFVal.null, TFVal.null⟩
          (Except.ok
            ⟨"test",
              [⟨"k3d-test-server-0", "server", "rancher/k3s:a", [], [], [], [], ""⟩,
                ⟨"k3d-test-serverlb", "loadbalancer", "rancher/k3d-proxy", [], [], [], [], ""⟩],
              "k3d-test", none⟩)).2 = false) :=
  ⟨(readCluster_image_ambiguity _ _).1 (by decide),
    (readCluster_image_ambiguity _ _).2 "rancher/k3s:a" (by decide)⟩

/-- C10: on a successful cluster read whose lookup result carries no
Kubernetes API information, the `k8s_api_host`, `k8s_api_host_ip` and
`k8s_api_host_port` state fields keep their prior values, while agents,
servers, network and id are still refreshed from the lookup result. -/
theorem readCluster_no_kubeapi_frame (data : K3dClusterData) (nm : String)
    (nodes : List Node) (netName : String) :
    (readCluster data (Except.ok ⟨nm, nodes, netName, none⟩)).1.k8sHost = data.k8sHost ∧
    (readCluster data (Except.ok ⟨nm, nodes, netName, none⟩)).1.k8sHostIP = data.k8sHostIP ∧
    (readCluster data (Except.ok ⟨nm, nodes, netName, none⟩)).1.k8sHostPort = data.k8sHostPort ∧
    (readCluster data (Except.ok ⟨nm, nodes, netName, none⟩)).1.agents =
      TFVal.value (Int.ofNat (scanNodes nodes).agents) ∧
    (readCluster data (Except.ok ⟨nm, nodes, netName, none⟩)).1.servers =
      TFVal.value (Int.ofNat (scanNodes nodes).servers) ∧
    (readCluster data (Except.ok ⟨nm, nodes, netName, none⟩)).1.network =
      TFVal.value netName ∧
    (readCluster data (Except.ok ⟨nm, nodes, netName, none⟩)).1.id = data.name := by
  have hf := imageObservation_frame data (scanNodes nodes).images
  dsimp only [readCluster, readClusterOk, kubeAPIObservation]
  exact ⟨hf.2.1, hf.2.2.1, hf.2.2.2, rfl, rfl, rfl, hf.1⟩

/-! ### C6: the nodes data source filters by cluster membership -/

/-- The last element of a list satisfying a predicate (Go map overwrite
semantics: a later store for the same key wins). -/
def lastMatch (p : Node → Bool) : List Node → Option Node
  | [] => none
  | a :: l =>
    match lastMatch p l with
    | some n => some n
    | none => if p a then some a else none

theorem lastMatch_isSome_iff (p : Node → Bool) (l : List Node) :
    (lastMatch p l).isSome = true ↔ ∃ n ∈ l, p n = true := by
  induction l with
  | nil => simp [lastMatch]
  | cons a l ih =>
    rw [lastMatch]
    cases hl : lastMatch p l with
    | some n =>
      have h1 : ∃ m ∈ l, p m = true := ih.mp (by rw [hl]; rfl)
      simp only [Option.isSome_some, true_iff]
      obtain ⟨m, hm, hp⟩ := h1
      exact ⟨m, List.mem_cons_of_mem a hm, hp⟩
    | none =>
      have h1 : ¬ ∃ m ∈ l, p m = true := by
        intro hc
        have h2 := ih.mpr hc
        rw [hl] at h2
        exact absurd h2 (by decide)
      by_cases hp : p a = true
      · rw [if_pos hp]
        simp only [Option.isSome_some, true_iff]
        exact ⟨a, List.mem_cons_self a l, hp⟩
      · rw [if_neg hp]
        constructor
        · intro h
          exact absurd h (by decide)
        · rintro ⟨n, hn, hpn⟩
          rcases List.mem_cons.mp hn with h | h
          · rw [h] at hpn
            exact absurd hpn hp
          · exact (h1 ⟨n, h, hpn⟩).elim

theorem lastMatch_eq_some (p : Node → Bool) (l : List Node) (n : Node)
    (h : lastMatch p l = some n) : n ∈ l ∧ p n = true := by
  induction l with
  | nil => exact absurd h (by simp [lastMatch])
  | cons a l ih =>
    rw [lastMatch] at h
    cases hl : lastMatch p l with
    | some m =>
      rw [hl] at h
      obtain rfl : m = n := by injection h
      have := ih hl
      exact ⟨List.mem_cons_of_mem a this.1, this.2⟩
    | none =>
      rw [hl] at h
      cases hp : p a with
      | true =>
        rw [if_pos hp] at h
        obtain rfl : a = n := by injection h
        exact ⟨List.mem_cons_self a l, hp⟩
      | false => rw [if_neg (by simp [hp])] at h; exact absurd h (by simp)

/-- The retained-node predicate of the data source read, specialised to a
result key. -/
def retainedAs (c k : String) (n : Node) : Bool :=
  nodeInCluster c n && n.name == k

theorem nodesRead_lookup_eq (c k : String) (ns : List Node) :
    ∀ m : List (String × K3dNodeOut),
      ((ns.foldl
          (fun m n => if nodeInCluster c n then (n.name, convertNode n) :: m else m)
          m).lookup k) =
        match lastMatch (retainedAs c k) ns with
        | some n => some (convertNode n)
        | none => m.lookup k := by
  induction ns with
  | nil => intro m; rfl
  | cons a l ih =>
    intro m
    rw [List.foldl_cons, ih]
    simp only [lastMatch]
    cases hl : lastMatch (retainedAs c k) l with
    | some n => rfl
    | none =>
      dsimp only
      cases hin : nodeInCluster c a with
      | true =>
        cases hk : a.name == k with
        | true =>
          have hr : retainedAs c k a = true := by simp [retainedAs, hin, hk]
          have hk2 : (k == a.name) = true := by
            simp only [beq_iff_eq] at hk ⊢
            exact hk.symm
          simp [hin, hr, List.lookup, hk2]
        | false =>
          have hr : retainedAs c k a = false := by simp [retainedAs, hk]
          have hk2 : (k == a.name) = false := by
            simp only [beq_eq_false_iff_ne] at hk ⊢
            exact fun h => hk h.symm
          simp [hin, hr, List.lookup, hk2]
      | false =>
        have hr : retainedAs c k a = false := by simp [retainedAs, hin]
        simp [hin, hr]

/-- C6: the map produced by the nodes data-source read contains exactly
the nodes whose runtime label "k3d.cluster" equals the requested cluster
name — there is an entry under a name if and only if some listed node with
that name carries the label, and every stored record is the projection of
such a node.  Nodes without the label, or labelled with another cluster,
are excluded. -/
theorem nodesRead_exactly_cluster_members (c : String) (ns : List Node) (k : String) :
    (((nodesRead c ns).lookup k).isSome = true ↔
      ∃ n ∈ ns, nodeInCluster c n = true ∧ n.name = k) ∧
    (∀ out, (nodesRead c ns).lookup k = some out →
      ∃ n ∈ ns, nodeInCluster c n = true ∧ n.name = k ∧ out = convertNode n) := by
  have hmem : ∀ n : Node, retainedAs c k n = true ↔ nodeInCluster c n = true ∧ n.name = k := by
    intro n
    simp [retainedAs, Bool.and_eq_true, beq_iff_eq]
  have hchar0 : (nodesRead c ns).lookup k =
      match lastMatch (retainedAs c k) ns with
      | some n => some (convertNode n)
      | none => none := by
    rw [show nodesRead c ns = ns.foldl
        (fun m n => if nodeInCluster c n then (n.name, convertNode n) :: m else m) [] from rfl,
      nodesRead_lookup_eq c k ns []]
    cases lastMatch (retainedAs c k) ns <;> rfl
  constructor
  · rw [hchar0]
    cases hl : lastMatch (retainedAs c k) ns with
    | some n =>
      simp only [Option.isSome_some, true_iff]
      have h1 := lastMatch_eq_some _ _ _ hl
      exact ⟨n, h1.1, (hmem n).mp h1.2⟩
    | none =>
      have hno : ¬ ∃ n ∈ ns, retainedAs c k n = true := by
        intro hc
        have h2 := (lastMatch_isSome_iff (retainedAs c k) ns).mpr hc
        rw [hl] at h2
        exact absurd h2 (by decide)
      constructor
      · intro h
        exact absurd h (by decide)
      · rintro ⟨n, hn, hc1, hc2⟩
        exact (hno ⟨n, hn, (hmem n).mpr ⟨hc1, hc2⟩⟩).elim
  · intro out hout
    rw [hchar0] at hout
    cases hl : lastMatch (retainedAs c k) ns with
    | some n =>
      rw [hl] at hout
      have hn := lastMatch_eq_some _ _ _ hl
      have h2 : some (convertNode n) = some out := hout
      have hout' : convertNode n = out := by injection h2
      exact ⟨n, hn.1, ((hmem n).mp hn.2).1, ((hmem n).mp hn.2).2, hout'.symm⟩
    | none =>
      rw [hl] at hout
      exact Option.noConfusion hout

theorem nodesRead_exactly_cluster_members_witness :
    ∃ n ∈ [(⟨"k3d-test-server-0", "server", "img", [], [("k3d.cluster", "test")], [], [], ""⟩ : Node),
        ⟨"k3d-other-server-0", "server", "img", [], [("k3d.cluster", "other")], [], [], ""⟩],
      nodeInCluster "test" n = true ∧ n.name = "k3d-test-server-0" ∧
      convertNode ⟨"k3d-test-server-0", "server", "img", [], [("k3d.cluster", "test")], [], [], ""⟩ =
        convertNode n :=
  (nodesRead_exactly_cluster_members "test"
      [⟨"k3d-test-server-0", "server", "img", [], [("k3d.cluster", "test")], [], [], ""⟩,
        ⟨"k3d-other-server-0", "server", "img", [], [("k3d.cluster", "other")], [], [], ""⟩]
      "k3d-test-server-0").2
    (convertNode ⟨"k3d-test-server-0", "server", "img", [], [("k3d.cluster", "test")], [], [], ""⟩)
    rfl

/-! ### Model validation

Spot checks that the embeddings of `strconv.ParseInt` and `net.ParseIP`
behave like the Go functions on representative inputs. -/

theorem goParseInt_model_examples :
    goParseInt 16 "6550" = some 6550 ∧
    goParseInt 16 "32767" = some 32767 ∧
    goParseInt 16 "32768" = none ∧
    goParseInt 16 "-5" = some (-5) ∧
    goParseInt 16 "1a" = none ∧
    goParseInt 16 "" = none ∧
    goParseInt 16 "+80" = some 80 := by
  decide

theorem goParseIP_model_examples :
    goParseIPOk "127.0.0.1" = true ∧
    goParseIPOk "10.0.0.5" = true ∧
    goParseIPOk "256.1.1.1" = false ∧
    goParseIPOk "not-an-ip" = false ∧
    goParseIPOk "" = false ∧
    goParseIPOk "1.2.3" = false ∧
    goParseIPOk "01.2.3.4" = false ∧
    goParseIPOk "::" = true ∧
    goParseIPOk "::1" = true ∧
    goParseIPOk "1:2:3:4:5:6:7:8" = true ∧
    goParseIPOk "1:2:3:4:5:6:7:8:9" = false ∧
    goParseIPOk "1::2::3" = false ∧
    goParseIPOk "::ffff:1.2.3.4" = true ∧
    goParseIPOk "fe80::1%eth0" = false := by
  decide
